import Mathlib

/-!
Verification of the animated-octopus creature module (`src/Octopus.tsx`).

The component keeps nine reactive state cells (pupil offset, blink flag,
cross-eye flag and its convergence height, hover flag, wandering pupil,
wiggle-group set, flash row, eye mode) and mutates them from timer callbacks
and pointer events.  We embed that state as `OctoState`, the pure pose
resolution as `resolvePose`, and the timer-driven parts as explicit
lists of scheduled actions over simulated time.
-/

/-- Eye mode: `'track' | 'wander'` (the `eyeMode` state cell). -/
inductive EyeMode where
  | track
  | wander
deriving DecidableEq, Repr

/-- The component's reactive state cells, in source order
(`Octopus.tsx` lines 72-80). -/
structure OctoState where
  pupilOffset : Int × Int
  isBlinking : Bool
  isCrossEyed : Bool
  crossEyedY : Nat
  isHovered : Bool
  randomPupil : Option (Int × Int)
  wiggleGroups : Finset Nat
  flashRow : Option Nat
  eyeMode : EyeMode
deriving DecidableEq

/-- The initial state established at mount: `useState` defaults
(`Octopus.tsx` lines 72-80). -/
def initState : OctoState :=
  { pupilOffset := (0, 0)
    isBlinking := false
    isCrossEyed := false
    crossEyedY := 4
    isHovered := false
    randomPupil := none
    wiggleGroups := ∅
    flashRow := none
    eyeMode := .track }

/-- Dead-zone threshold of the pointer-tracking handler (`const dead = 30`). -/
def deadZone : ℚ := 30

/-- The tracked gaze target computed by the mouse-move handler from the
pointer displacement `(dx, dy)` relative to the reference point:
`x: Math.abs(dx) > dead ? (dx > 0 ? 1 : -1) : 0` and likewise for `y`
(`Octopus.tsx` lines 102-105). -/
def trackedTarget (dx dy : ℚ) : Int × Int :=
  (if deadZone < |dx| then (if 0 < dx then 1 else -1) else 0,
   if deadZone < |dy| then (if 0 < dy then 1 else -1) else 0)

/-- The fixed 8-octant direction set `LOOK_DIRS` (`Octopus.tsx` lines 63-68). -/
def LOOK_DIRS : List (Int × Int) :=
  [(-1, -1), (1, -1),
   (-1, 1), (1, 1),
   (0, -1), (0, 1),
   (-1, 0), (1, 0)]

/-- Sign-normalization applied to each pupil-offset axis before choosing a
wander direction: `pupilOffset.x < 0 ? -1 : pupilOffset.x > 0 ? 1 : 0`
(`Octopus.tsx` lines 121-122). -/
def sgnAxis (v : Int) : Int :=
  if v < 0 then -1 else if 0 < v then 1 else 0

/-- The candidate wander directions: `LOOK_DIRS.filter(d => d.x !== mouseX
|| d.y !== mouseY)` where `(mouseX, mouseY)` is the sign-normalized pupil
offset (`Octopus.tsx` line 123). -/
def awayDirs (p : Int × Int) : List (Int × Int) :=
  LOOK_DIRS.filter (fun d => decide (d.1 ≠ sgnAxis p.1 ∨ d.2 ≠ sgnAxis p.2))

/-- The three autonomous blink episode kinds. -/
inductive BlinkKind where
  | double
  | slow
  | normal
deriving DecidableEq, Repr

/-- Episode selection from one random roll in the auto-blink cycle:
`roll < 0.25` double, `roll < 0.40` slow, otherwise normal
(`Octopus.tsx` lines 139-155). -/
def chooseEpisode (roll : ℚ) : BlinkKind :=
  if roll < 25 / 100 then .double
  else if roll < 40 / 100 then .slow
  else .normal

/-- The convergence-height draw in the idle-gesture cross-eye band:
`Math.random() < 0.5 ? 3 : 4` (`Octopus.tsx` line 203). -/
def crossEyedYDraw (r : ℚ) : Nat :=
  if r < 1 / 2 then 3 else 4

/-- The gaze target the pose is resolved from:
`eyeMode === 'wander' && randomPupil ? randomPupil : pupilOffset`
(`Octopus.tsx` line 234). -/
def effectivePupil (s : OctoState) : Int × Int :=
  match s.eyeMode, s.randomPupil with
  | .wander, some p => p
  | _, _ => s.pupilOffset

/-- Per-axis pupil offset from the effective gaze component:
`effectivePupil.x < 0 ? 0 : effectivePupil.x > 0 ? 1 : 0`
(`Octopus.tsx` lines 235-236). -/
def pupilAxis (v : Int) : Int :=
  if v < 0 then 0 else if 0 < v then 1 else 0

/-- The render-ready eye portion of the pose: whether the eyes are drawn
closed and, when open, the two pupil cells `((leftPx, leftPy), (rightPx,
rightPy))`; `none` when the pupils are not rendered at all. -/
structure Pose where
  eyesClosed : Bool
  pupils : Option ((Int × Int) × (Int × Int))
deriving DecidableEq, Repr

/-- Pose resolution (`Octopus.tsx` lines 234-246 and 281-286): neutral pupil
cells `(4+px, 3+py)` and `(7+px, 3+py)`; overridden to the convergent
cells `(5, crossEyedY)` and `(7, crossEyedY)` when cross-eyed; eyes closed
and no pupils rendered when `isBlinking`. -/
def resolvePose (s : OctoState) : Pose :=
  let ep := effectivePupil s
  let px := pupilAxis ep.1
  let py := pupilAxis ep.2
  let base := ((4 + px, 3 + py), (7 + px, 3 + py))
  let pup := if s.isCrossEyed then
      ((5, (s.crossEyedY : Int)), (7, (s.crossEyedY : Int)))
    else base
  { eyesClosed := s.isBlinking
    pupils := if s.isBlinking then none else some pup }

/-!
Simulated-time timer model.  A scheduled callback is a `Timer`: an absolute
fire time, the state write its callback performs, and the ref cell (if any)
that holds its id.  The four `useEffect` cleanups run `clearTimeout` on
`blinkRef`, `idleRef`, `eyeRef` and `flashRef` only, so teardown cancels
exactly the ref-held timers; anonymous `setTimeout` ids are never stored
and therefore never cleared.
-/

/-- The four timer refs of the component (`Octopus.tsx` lines 81-84). -/
inductive TRef where
  | blinkR
  | idleR
  | eyeR
  | flashR
deriving DecidableEq

/-- State writes performed by the scheduled callbacks this model needs:
`setIsBlinking` and `setWiggleGroups`. -/
inductive TAction where
  | setBlinkingA (b : Bool)
  | setWiggleA (g : Finset Nat)
deriving DecidableEq

/-- A pending scheduled callback. -/
structure Timer where
  time : Nat
  act : TAction
  tag : Option TRef
deriving DecidableEq

/-- Apply one callback's state write. -/
def applyT (a : TAction) (s : OctoState) : OctoState :=
  match a with
  | .setBlinkingA b => { s with isBlinking := b }
  | .setWiggleA g => { s with wiggleGroups := g }

/-- The pointer-enter handler (`Octopus.tsx` lines 218-227): synchronously
sets the hover flag and the blink flag, then schedules five anonymous
timeouts — open the eyes at +120ms, and the scripted tentacle wave
`{1,2}` at +50, `{0,1,2,3}` at +150, `{0,3}` at +300, `∅` at +450.
None of the five ids is stored in a ref. -/
def handleMouseEnter (now : Nat) (s : OctoState) : OctoState × List Timer :=
  ({ s with isHovered := true, isBlinking := true },
   [⟨now + 120, .setBlinkingA false, none⟩,
    ⟨now + 50, .setWiggleA {1, 2}, none⟩,
    ⟨now + 150, .setWiggleA {0, 1, 2, 3}, none⟩,
    ⟨now + 300, .setWiggleA {0, 3}, none⟩,
    ⟨now + 450, .setWiggleA ∅, none⟩])

/-- The pointer-leave handler (`Octopus.tsx` lines 229-231): clears the
hover flag and does nothing else. -/
def handleMouseLeave (s : OctoState) : OctoState :=
  { s with isHovered := false }

/-- Timeouts scheduled by the pointer-leave handler: there are none. -/
def mouseLeaveTimers : List Timer := []

/-- Insert a timer after all already-queued timers with an earlier or equal
fire time (stable insertion). -/
def insertDue (x : Timer) : List Timer → List Timer
  | [] => [x]
  | y :: ys => if y.time ≤ x.time then y :: insertDue x ys else x :: y :: ys

/-- The callbacks due by time `T`, in firing order (earlier fire time first,
insertion order among equal times). -/
def dueSorted (T : Nat) (pend : List Timer) : List Timer :=
  (pend.filter (fun t => decide (t.time ≤ T))).foldl (fun acc x => insertDue x acc) []

/-- Advance simulated time to `T`: fire every due callback in order. -/
def stateAt (s : OctoState) (pend : List Timer) (T : Nat) : OctoState :=
  (dueSorted T pend).foldl (fun st t => applyT t.act st) s

/-- Teardown (the `useEffect` cleanups): `clearTimeout` on the four ref-held
ids, leaving every anonymous pending timeout scheduled. -/
def teardownRemaining (pend : List Timer) : List Timer :=
  pend.filter (fun t => decide (t.tag = none))

/-!
Autonomous blink loop (`Octopus.tsx` lines 135-160).  Each pending timeout
of the loop is one `BlinkStep`; firing a step sets the blink flag and
schedules exactly its successor.  `cycleStart` is the between-episode delay
timer created by `schedule()`; the other steps are the nested anonymous
timeouts inside an episode.  `schedule()` — that is, a new `cycleStart`
timer — is invoked only in the callback that performs an episode's final
`setIsBlinking(false)`.
-/

/-- One pending timeout of the autonomous blink loop. -/
inductive BlinkStep where
  | cycleStart
  | dblOpen1
  | dblClose2
  | dblOpenFinal
  | slowOpenFinal
  | normOpenFinal
deriving DecidableEq

/-- Fire one blink-loop timeout: the new blink-flag value, and the list of
timeouts it schedules, each with its relative delay in ms.  `roll` is the
`Math.random()` episode draw (consumed by `cycleStart`), `jit` the
`Math.random()` jitter of the next cycle's delay `2000 + jit*6000`
(consumed by the final open of each episode, which calls `schedule()`). -/
def blinkFire (st : BlinkStep) (roll jit : ℚ) : Bool × List (ℚ × BlinkStep) :=
  match st with
  | .cycleStart =>
      match chooseEpisode roll with
      | .double => (true, [(80, .dblOpen1)])
      | .slow => (true, [(250, .slowOpenFinal)])
      | .normal => (true, [(100, .normOpenFinal)])
  | .dblOpen1 => (false, [(150, .dblClose2)])
  | .dblClose2 => (true, [(80, .dblOpenFinal)])
  | .dblOpenFinal => (false, [(2000 + jit * 6000, .cycleStart)])
  | .slowOpenFinal => (false, [(2000 + jit * 6000, .cycleStart)])
  | .normOpenFinal => (false, [(2000 + jit * 6000, .cycleStart)])

/-- A blink-loop configuration: the blink flag and the pending timeouts. -/
abbrev BlinkCfg := Bool × List (ℚ × BlinkStep)

/-- Fire the head pending timeout once (no-op on an empty queue). -/
def blinkStepOnce (cfg : BlinkCfg) (inp : ℚ × ℚ) : BlinkCfg :=
  match cfg.2 with
  | [] => cfg
  | (_, st) :: more =>
      ((blinkFire st inp.1 inp.2).1, more ++ (blinkFire st inp.1 inp.2).2)

/-- Run the blink loop over a stream of `(roll, jitter)` random inputs. -/
def blinkRun (cfg : BlinkCfg) : List (ℚ × ℚ) → BlinkCfg
  | [] => cfg
  | inp :: rest => blinkRun (blinkStepOnce cfg inp) rest

/-- The configuration the blink effect creates at mount: eyes open and the
single delay timer from the first `schedule()` call. -/
def blinkInitCfg (d0 : ℚ) : BlinkCfg := (false, [(d0, .cycleStart)])

lemma blinkFire_sched_length (st : BlinkStep) (roll jit : ℚ) :
    ((blinkFire st roll jit).2).length = 1 := by
  cases st <;> simp [blinkFire]
  rcases chooseEpisode roll <;> simp

lemma blinkStepOnce_length (cfg : BlinkCfg) (inp : ℚ × ℚ)
    (h : cfg.2.length = 1) : (blinkStepOnce cfg inp).2.length = 1 := by
  rcases cfg with ⟨b, pend⟩
  rcases pend with _ | ⟨⟨d, st⟩, more⟩
  · simp at h
  · simp at h
    simp [blinkStepOnce, h, blinkFire_sched_length]

lemma blinkRun_length (inputs : List (ℚ × ℚ)) :
    ∀ cfg : BlinkCfg, cfg.2.length = 1 → (blinkRun cfg inputs).2.length = 1 := by
  induction inputs with
  | nil => intro cfg h; simpa [blinkRun] using h
  | cons inp rest ih =>
      intro cfg h
      simpa [blinkRun] using ih _ (blinkStepOnce_length cfg inp h)

/-!
Claim theorems.
-/

/-- C2: the tracked gaze target is computed axis-independently: a
displacement within the dead-zone on an axis yields 0 on that axis
(whatever the other axis is); within on both axes yields `(0, 0)`; beyond
the dead-zone on exactly one axis, the other component is 0 and the
displaced component is exactly the sign of the displacement, `+1` or
`-1`, never any other magnitude. -/
theorem trackedTarget_deadZone_axes (dx dy : ℚ) :
    (|dx| ≤ 30 → (trackedTarget dx dy).1 = 0) ∧
    (|dy| ≤ 30 → (trackedTarget dx dy).2 = 0) ∧
    (|dx| ≤ 30 → |dy| ≤ 30 → trackedTarget dx dy = (0, 0)) ∧
    (30 < |dx| → |dy| ≤ 30 →
      (trackedTarget dx dy).2 = 0 ∧
      ((0 < dx ∧ (trackedTarget dx dy).1 = 1) ∨
       (dx < 0 ∧ (trackedTarget dx dy).1 = -1))) ∧
    (30 < |dy| → |dx| ≤ 30 →
      (trackedTarget dx dy).1 = 0 ∧
      ((0 < dy ∧ (trackedTarget dx dy).2 = 1) ∨
       (dy < 0 ∧ (trackedTarget dx dy).2 = -1))) := by
  have hx : ∀ v : ℚ, 30 < |v| → ¬ 0 < v → v < 0 := by
    intro v hv hnp
    rcases lt_trichotomy v 0 with h | h | h
    · exact h
    · simp [h] at hv; linarith
    · exact absurd h hnp
  refine ⟨?_, ?_, ?_, ?_, ?_⟩
  · intro h
    simp [trackedTarget, deadZone, not_lt.mpr h]
  · intro h
    simp [trackedTarget, deadZone, not_lt.mpr h]
  · intro h1 h2
    simp [trackedTarget, deadZone, not_lt.mpr h1, not_lt.mpr h2, Prod.ext_iff]
  · intro h1 h2
    refine ⟨by simp [trackedTarget, deadZone, not_lt.mpr h2], ?_⟩
    by_cases hp : 0 < dx
    · left; exact ⟨hp, by simp [trackedTarget, deadZone, h1, hp]⟩
    · right; exact ⟨hx dx h1 hp, by simp [trackedTarget, deadZone, h1, hp]⟩
  · intro h1 h2
    refine ⟨by simp [trackedTarget, deadZone, not_lt.mpr h2], ?_⟩
    by_cases hp : 0 < dy
    · left; exact ⟨hp, by simp [trackedTarget, deadZone, h1, hp]⟩
    · right; exact ⟨hx dy h1 hp, by simp [trackedTarget, deadZone, h1, hp]⟩

/-- C2 witness: the pointer at displacement `(100, 0)` is beyond the
dead-zone on the x axis only, and the tracked target is `(1, 0)`. -/
theorem trackedTarget_deadZone_axes_witness :
    (trackedTarget 100 0).2 = 0 ∧
    ((0 < (100 : ℚ) ∧ (trackedTarget 100 0).1 = 1) ∨
     ((100 : ℚ) < 0 ∧ (trackedTarget 100 0).1 = -1)) :=
  (trackedTarget_deadZone_axes 100 0).2.2.2.1
    (by rw [abs_of_nonneg] <;> norm_num)
    (by rw [abs_of_nonneg] <;> norm_num)

/-- C3: the blink cycle's episode draw selects double-blink when
`r < 0.25`, slow blink when `0.25 ≤ r < 0.40`, and normal blink
otherwise — the 25% / 15% / 60% probability bands. -/
theorem chooseEpisode_bands (r : ℚ) :
    (r < 25 / 100 → chooseEpisode r = .double) ∧
    (25 / 100 ≤ r → r < 40 / 100 → chooseEpisode r = .slow) ∧
    (40 / 100 ≤ r → chooseEpisode r = .normal) := by
  unfold chooseEpisode
  refine ⟨?_, ?_, ?_⟩
  · intro h; rw [if_pos h]
  · intro h1 h2; rw [if_neg (by linarith), if_pos h2]
  · intro h; rw [if_neg (by linarith), if_neg (by linarith)]

/-- C3 witness: the draw `r = 3/10` falls in the slow-blink band. -/
theorem chooseEpisode_bands_witness : chooseEpisode (3 / 10) = .slow :=
  (chooseEpisode_bands (3 / 10)).2.1 (by norm_num) (by norm_num)

/-- C4: whichever index the random draw selects into the filtered
candidate list, the wander direction chosen when switching to wandering
is never the sign-normalized preceding tracked direction. -/
theorem awayDirs_ne_tracked (p : Int × Int) (i : Nat)
    (h : i < (awayDirs p).length) :
    (awayDirs p).get ⟨i, h⟩ ≠ (sgnAxis p.1, sgnAxis p.2) := by
  have hm : (awayDirs p).get ⟨i, h⟩ ∈ awayDirs p := List.get_mem _ _ _
  have h2 := (List.mem_filter.mp hm).2
  intro heq
  rw [heq] at h2
  simp at h2

/-- C4 witness: with the tracked direction centered at `(0, 0)`, the
candidate list is nonempty and its first entry differs from the tracked
direction. -/
theorem awayDirs_ne_tracked_witness :
    (awayDirs (0, 0)).get ⟨0, by decide⟩ ≠ (sgnAxis 0, sgnAxis 0) :=
  awayDirs_ne_tracked (0, 0) 0 (by decide)

/-- C5: whenever the blink flag is true the resolved pose has both eyes
closed and renders no pupils, regardless of the cross-eye override and
gaze target; the override's stored state is untouched by resolution
(resolution is a pure function of the state), so the same state with the
blink flag back to false renders the convergent pupils again. -/
theorem blink_hides_pupils_preserves_crossEye (s : OctoState)
    (h : s.isBlinking = true) :
    (resolvePose s).eyesClosed = true ∧
    (resolvePose s).pupils = none ∧
    (s.isCrossEyed = true →
      (resolvePose { s with isBlinking := false }).pupils =
        some ((5, (s.crossEyedY : Int)), (7, (s.crossEyedY : Int)))) := by
  refine ⟨by simp [resolvePose, h], by simp [resolvePose, h], ?_⟩
  intro hc
  simp [resolvePose, hc]

/-- A blinking, cross-eyed sample state at convergence height 3. -/
def blinkCrossSample : OctoState :=
  { initState with isBlinking := true, isCrossEyed := true, crossEyedY := 3 }

/-- C5 witness: the sample blinking, cross-eyed state renders closed eyes
and no pupils, and renders convergent pupils once the blink flag drops. -/
theorem blink_hides_pupils_preserves_crossEye_witness :
    (resolvePose blinkCrossSample).eyesClosed = true ∧
    (resolvePose blinkCrossSample).pupils = none ∧
    ((resolvePose { blinkCrossSample with isBlinking := false }).pupils =
      some ((5, (blinkCrossSample.crossEyedY : Int)),
            (7, (blinkCrossSample.crossEyedY : Int)))) := by
  have h := blink_hides_pupils_preserves_crossEye blinkCrossSample rfl
  exact ⟨h.1, h.2.1, h.2.2 rfl⟩

/-- C6: when the cross-eye override is active and the blink flag is false,
the resolved pose puts the left pupil at column 5 and the right pupil at
column 7, both at the convergence height row, for every gaze target and
eye mode; the convergence height starts at 4 and the idle-gesture draw —
the only write to it — always yields 3 or 4, so it is always in `{3, 4}`. -/
theorem crossEye_forces_convergent_pupils (s : OctoState) (r : ℚ)
    (hc : s.isCrossEyed = true) (hb : s.isBlinking = false) :
    (resolvePose s).pupils =
      some ((5, (s.crossEyedY : Int)), (7, (s.crossEyedY : Int))) ∧
    (crossEyedYDraw r = 3 ∨ crossEyedYDraw r = 4) ∧
    initState.crossEyedY = 4 := by
  refine ⟨by simp [resolvePose, hc, hb], ?_, rfl⟩
  unfold crossEyedYDraw
  by_cases h : r < 1 / 2
  · left; rw [if_pos h]
  · right; rw [if_neg h]

/-- A cross-eyed, non-blinking sample state at convergence height 3 with a
wandering gaze away from its tracked offset. -/
def crossWanderSample : OctoState :=
  { initState with
    isCrossEyed := true
    crossEyedY := 3
    pupilOffset := (1, -1)
    eyeMode := .wander
    randomPupil := some (-1, 1) }

/-- C6 witness: the cross-eyed wandering sample state renders pupils at
`(5, 3)` and `(7, 3)`; the draw `r = 9/10` yields height 4. -/
theorem crossEye_forces_convergent_pupils_witness :
    (resolvePose crossWanderSample).pupils =
      some ((5, (crossWanderSample.crossEyedY : Int)),
            (7, (crossWanderSample.crossEyedY : Int))) ∧
    (crossEyedYDraw (9 / 10) = 3 ∨ crossEyedYDraw (9 / 10) = 4) ∧
    initState.crossEyedY = 4 :=
  crossEye_forces_convergent_pupils crossWanderSample (9 / 10) rfl rfl

/-- C9: with the blink flag false and the cross-eye override inactive, the
pupils sit at the neutral cells `(4, 3)` and `(7, 3)` shifted per axis by
`pupilAxis` of the effective gaze component, and `pupilAxis` is 2-valued:
0 for every nonpositive component and 1 for every positive one — so the
components `-1` and `0` produce the identical rendered pupil cell. -/
theorem pupilAxis_two_valued (s : OctoState)
    (hb : s.isBlinking = false) (hc : s.isCrossEyed = false) :
    (resolvePose s).pupils =
      some ((4 + pupilAxis (effectivePupil s).1, 3 + pupilAxis (effectivePupil s).2),
            (7 + pupilAxis (effectivePupil s).1, 3 + pupilAxis (effectivePupil s).2)) ∧
    (∀ v : Int, v ≤ 0 → pupilAxis v = 0) ∧
    (∀ v : Int, 0 < v → pupilAxis v = 1) ∧
    pupilAxis (-1) = pupilAxis 0 := by
  refine ⟨by simp [resolvePose, hb, hc], ?_, ?_, by decide⟩
  · intro v hv
    unfold pupilAxis
    by_cases h : v < 0
    · rw [if_pos h]
    · rw [if_neg h, if_neg (by omega)]
  · intro v hv
    unfold pupilAxis
    rw [if_neg (by omega), if_pos hv]

/-- C9 witness: a state gazing at `(-1, 1)` renders pupils at `(4, 4)` and
`(7, 4)`; `pupilAxis` maps `-2` to 0 and `2` to 1. -/
theorem pupilAxis_two_valued_witness :
    (resolvePose { initState with pupilOffset := (-1, 1) }).pupils =
      some ((4 + pupilAxis (effectivePupil { initState with pupilOffset := (-1, 1) }).1,
             3 + pupilAxis (effectivePupil { initState with pupilOffset := (-1, 1) }).2),
            (7 + pupilAxis (effectivePupil { initState with pupilOffset := (-1, 1) }).1,
             3 + pupilAxis (effectivePupil { initState with pupilOffset := (-1, 1) }).2)) ∧
    pupilAxis (-2) = 0 ∧ pupilAxis 2 = 1 := by
  have h := pupilAxis_two_valued { initState with pupilOffset := (-1, 1) } rfl rfl
  exact ⟨h.1, h.2.1 (-2) (by omega), h.2.2.1 2 (by omega)⟩

/-- C7: pointer-enter sets the hover flag true and the blink flag true
immediately, opens the eyes at +120ms, and drives the wiggle set through
`{1, 2}` at +50ms, `{0, 1, 2, 3}` at +150ms, `{0, 3}` at +300ms and `∅`
at +450ms, in that order, overwriting whatever wiggle set was previously
present (just before +50ms the previous set is still there). -/
theorem mouseEnter_scripted_wave (s0 : OctoState) :
    ((handleMouseEnter 0 s0).1.isHovered = true) ∧
    ((handleMouseEnter 0 s0).1.isBlinking = true) ∧
    ((stateAt (handleMouseEnter 0 s0).1 (handleMouseEnter 0 s0).2 49).wiggleGroups
      = s0.wiggleGroups) ∧
    ((stateAt (handleMouseEnter 0 s0).1 (handleMouseEnter 0 s0).2 50).wiggleGroups
      = {1, 2}) ∧
    ((stateAt (handleMouseEnter 0 s0).1 (handleMouseEnter 0 s0).2 50).isBlinking
      = true) ∧
    ((stateAt (handleMouseEnter 0 s0).1 (handleMouseEnter 0 s0).2 120).isBlinking
      = false) ∧
    ((stateAt (handleMouseEnter 0 s0).1 (handleMouseEnter 0 s0).2 120).wiggleGroups
      = {1, 2}) ∧
    ((stateAt (handleMouseEnter 0 s0).1 (handleMouseEnter 0 s0).2 150).wiggleGroups
      = {0, 1, 2, 3}) ∧
    ((stateAt (handleMouseEnter 0 s0).1 (handleMouseEnter 0 s0).2 300).wiggleGroups
      = {0, 3}) ∧
    ((stateAt (handleMouseEnter 0 s0).1 (handleMouseEnter 0 s0).2 450).wiggleGroups
      = ∅) := by
  refine ⟨rfl, rfl, rfl, rfl, rfl, rfl, rfl, rfl, rfl, rfl⟩

/-- C1: teardown fails to cancel the pointer-enter timers.  After a
pointer-enter at t=0 on the initial state and teardown at t=10, all five
anonymous timeouts survive the `clearTimeout` cleanups (which clear only
the four ref-held ids — a ref-held timer would indeed be removed), and
advancing simulated time mutates the state: at t=50 the wiggle set has
become `{1, 2}` and at t=120 the blink flag has been written, observable
state changes after teardown. -/
theorem teardown_leaves_mouseEnter_timers_live :
    (teardownRemaining (handleMouseEnter 0 initState).2).length = 5 ∧
    teardownRemaining [⟨0, .setBlinkingA true, some .blinkR⟩] = [] ∧
    (handleMouseEnter 0 initState).1.wiggleGroups = ∅ ∧
    ((stateAt (handleMouseEnter 0 initState).1
        (teardownRemaining (handleMouseEnter 0 initState).2) 50).wiggleGroups
      = {1, 2}) ∧
    ((stateAt (handleMouseEnter 0 initState).1
        (teardownRemaining (handleMouseEnter 0 initState).2) 50).wiggleGroups
      ≠ (handleMouseEnter 0 initState).1.wiggleGroups) ∧
    ((stateAt (handleMouseEnter 0 initState).1
        (teardownRemaining (handleMouseEnter 0 initState).2) 120).isBlinking
      ≠ (handleMouseEnter 0 initState).1.isBlinking) := by
  refine ⟨rfl, rfl, rfl, rfl, by decide, by decide⟩

/-- C8: the autonomous blink loop never has two episodes in flight: from
the mount configuration (one pending delay timer), after any sequence of
random inputs exactly one timeout is pending; and a fire schedules the
next cycle's delay (`schedule()`) only when the fired step is an
episode's final open transition, which sets the blink flag false. -/
theorem blink_loop_no_overlap (inputs : List (ℚ × ℚ)) (d0 : ℚ) :
    ((blinkRun (blinkInitCfg d0) inputs).2.length = 1) ∧
    (∀ (st : BlinkStep) (r j : ℚ),
      BlinkStep.cycleStart ∈ ((blinkFire st r j).2).map Prod.snd →
      (blinkFire st r j).1 = false ∧
      (st = .dblOpenFinal ∨ st = .slowOpenFinal ∨ st = .normOpenFinal)) := by
  constructor
  · exact blinkRun_length inputs (blinkInitCfg d0) rfl
  · intro st r j hmem
    cases st with
    | cycleStart =>
        exfalso
        rcases hk : chooseEpisode r <;> simp [blinkFire, hk] at hmem
    | dblOpen1 => simp [blinkFire] at hmem
    | dblClose2 => simp [blinkFire] at hmem
    | dblOpenFinal => exact ⟨rfl, Or.inl rfl⟩
    | slowOpenFinal => exact ⟨rfl, Or.inr (Or.inl rfl)⟩
    | normOpenFinal => exact ⟨rfl, Or.inr (Or.inr rfl)⟩

/-- C8 witness: after three fires from mount (delay, close, final open of a
normal blink) exactly one timeout is pending, and firing the final open of
a double blink schedules the next cycle with the eyes open. -/
theorem blink_loop_no_overlap_witness :
    ((blinkRun (blinkInitCfg 2000) [(1/2, 0), (0, 1/2), (0, 0)]).2.length = 1) ∧
    ((blinkFire .dblOpenFinal 0 0).1 = false ∧
      (BlinkStep.dblOpenFinal = BlinkStep.dblOpenFinal ∨
       BlinkStep.dblOpenFinal = BlinkStep.slowOpenFinal ∨
       BlinkStep.dblOpenFinal = BlinkStep.normOpenFinal)) :=
  ⟨(blink_loop_no_overlap [(1/2, 0), (0, 1/2), (0, 0)] 2000).1,
   (blink_loop_no_overlap [(1/2, 0), (0, 1/2), (0, 0)] 2000).2
     .dblOpenFinal 0 0 (by simp [blinkFire])⟩

/-- C10: pointer-leave clears the hover flag and changes nothing else —
every other state field is untouched, it schedules no timeout and cancels
none — and when the hover flag is already false (no prior pointer-enter)
the whole state is unchanged. -/
theorem mouseLeave_clears_hover_only (s : OctoState) :
    (handleMouseLeave s).isHovered = false ∧
    (handleMouseLeave s).pupilOffset = s.pupilOffset ∧
    (handleMouseLeave s).isBlinking = s.isBlinking ∧
    (handleMouseLeave s).isCrossEyed = s.isCrossEyed ∧
    (handleMouseLeave s).crossEyedY = s.crossEyedY ∧
    (handleMouseLeave s).randomPupil = s.randomPupil ∧
    (handleMouseLeave s).wiggleGroups = s.wiggleGroups ∧
    (handleMouseLeave s).flashRow = s.flashRow ∧
    (handleMouseLeave s).eyeMode = s.eyeMode ∧
    mouseLeaveTimers = [] ∧
    (s.isHovered = false → handleMouseLeave s = s) := by
  refine ⟨rfl, rfl, rfl, rfl, rfl, rfl, rfl, rfl, rfl, rfl, ?_⟩
  intro h
  cases s
  simp only [handleMouseLeave]
  simp_all

/-- C10 witness: pointer-leave on the initial state (which was never
hovered) clears nothing and leaves the state identical. -/
theorem mouseLeave_clears_hover_only_witness :
    (handleMouseLeave initState).isHovered = false ∧
    handleMouseLeave initState = initState :=
  ⟨(mouseLeave_clears_hover_only initState).1,
   (mouseLeave_clears_hover_only initState).2.2.2.2.2.2.2.2.2.2 rfl⟩
